import Mathlib

/-!
Verification of the register-decoding and derived-measurement engine of
`powermeter_via_ip.py` (Victron VM-3P75CT Modbus/UDP power-meter poller).

Shallow embedding conventions:
* Python `float` is modelled by `ℚ` (exact arithmetic; the properties at stake
  are structural: presence/absence, clamping, address/scale tables).
* 16-bit register words are `ℕ`; the source's `& 0xFFFF` masks become `% 65536`,
  and the bit test `value & (1 << (bits - 1))` becomes `Nat.testBit value (bits - 1)`.
* A Python function that can raise is modelled in `Except String`; the string
  carries the exception class/message.  `None` results are `Option.none`.
* The Modbus transport (pymodbus client) is a pair of oracles giving, for each
  (address, count), either the words read or a failure; `none` covers both the
  `rr is None` and the `rr.isError()` cases of the source.
-/

namespace Powermeter

/-- Embedding of `_twos_complement(value, bits)`.

Source:
```
if value & (1 << (bits - 1)):
    value -= 1 << bits
return value
```
There is no width validation in the source; with `bits = 0` Python evaluates
`1 << (-1)` and raises `ValueError: negative shift count`, which is the only
failing case (for a natural-number width).  All call sites pass a masked
non-negative `value`, so `value : ℕ`. -/
def twos_complement (value : ℕ) (bits : ℕ) : Except String ℤ :=
  if bits = 0 then .error "ValueError: negative shift count"
  else if Nat.testBit value (bits - 1) then .ok ((value : ℤ) - 2 ^ bits)
  else .ok (value : ℤ)

/-- Embedding of `decode_int16(registers, signed)`.

Source: raise `ValueError` unless `len(registers) == 1`; then
`raw = registers[0] & 0xFFFF`; two's complement at width 16 when signed. -/
def decode_int16 (registers : List ℕ) (signed : Bool) : Except String ℤ :=
  match registers with
  | [r] =>
    let raw := r % 65536
    if signed then twos_complement raw 16 else .ok (raw : ℤ)
  | _ => .error "decode_int16 expects exactly 1 register"

/-- Embedding of `decode_int32(registers, signed)`.

Source: raise `ValueError` unless `len(registers) == 2`; then
`hi = registers[0] & 0xFFFF`, `lo = registers[1] & 0xFFFF`,
`raw = (hi << 16) | lo`; two's complement at width 32 when signed.
Since `hi, lo < 2^16`, `(hi << 16) | lo = hi * 65536 + lo`. -/
def decode_int32 (registers : List ℕ) (signed : Bool) : Except String ℤ :=
  match registers with
  | [h, l] =>
    let hi := h % 65536
    let lo := l % 65536
    let raw := hi * 65536 + lo
    if signed then twos_complement raw 32 else .ok (raw : ℤ)
  | _ => .error "decode_int32 expects exactly 2 registers"

/-- The Modbus transport: for each (address, count), the words returned by an
input-register read (function code 4) and by a holding-register read
(function code 3).  `none` = the read failed (`rr is None or rr.isError()`). -/
structure Transport where
  readInput : ℕ → ℕ → Option (List ℕ)
  readHolding : ℕ → ℕ → Option (List ℕ)

/-- The transport interface contract (spec §6): a successful read returns
exactly `count` words.  pymodbus guarantees this for non-error replies. -/
def Transport.Wf (t : Transport) : Prop :=
  ∀ a c regs, (t.readInput a c = some regs → regs.length = c) ∧
    (t.readHolding a c = some regs → regs.length = c)

/-- Embedding of `read_input_or_holding(client, address, count)`:
try input registers first, fall back to holding registers, `None` if both fail. -/
def read_input_or_holding (t : Transport) (address : ℕ) (count : ℕ) :
    Option (List ℕ) :=
  match t.readInput address count with
  | some regs => some regs
  | none =>
    match t.readHolding address count with
    | some regs => some regs
    | none => none

/-- Embedding of `read_int16_scaled(client, address, scale, signed)`:
read one register, decode as 16-bit, multiply by `scale`; `None` when the
register access failed.  A `ValueError` from the decoder propagates. -/
def read_int16_scaled (t : Transport) (address : ℕ) (scale : ℚ) (signed : Bool) :
    Except String (Option ℚ) :=
  match read_input_or_holding t address 1 with
  | none => .ok none
  | some regs =>
    match decode_int16 regs signed with
    | .error e => .error e
    | .ok raw => .ok (some ((raw : ℚ) * scale))

/-- Embedding of `read_int32_scaled(client, address, scale, signed)`:
read two registers, decode as 32-bit, multiply by `scale`. -/
def read_int32_scaled (t : Transport) (address : ℕ) (scale : ℚ) (signed : Bool) :
    Except String (Option ℚ) :=
  match read_input_or_holding t address 2 with
  | none => .ok none
  | some regs =>
    match decode_int32 regs signed with
    | .error e => .error e
    | .ok raw => .ok (some ((raw : ℚ) * scale))

/-- Embedding of the nested `_pf_for_phase(P, U, I)` of `read_all`:
absent when any input is absent or `abs (U * I) < 1e-6`; otherwise
`P / (U * I)` clamped by the source's two sequential `if`s. -/
def pf_for_phase (P U I : Option ℚ) : Option ℚ :=
  match P, U, I with
  | some Pv, some Uv, some Iv =>
    let denom := Uv * Iv
    if |denom| < 1 / 1000000 then none
    else
      let pf := Pv / denom
      let pf1 := if pf > 1 then (1 : ℚ) else pf
      let pf2 := if pf1 < -1 then (-1 : ℚ) else pf1
      some pf2
  | _, _, _ => none

/-- Embedding of the `PF_total` block of `read_all`: absent when `P_total` is
absent; sum `abs (U * I)` over the phases where both are present (in order
L1, L2, L3); `sum(S_terms) if S_terms else 0.0`; absent when that sum is
`≤ 1e-6`, else `P_total / S_total` clamped by the two sequential `if`s. -/
def pf_total_calc (P_total U1 I1 U2 I2 U3 I3 : Option ℚ) : Option ℚ :=
  match P_total with
  | none => none
  | some Pt =>
    let S_terms : List ℚ :=
      [(U1, I1), (U2, I2), (U3, I3)].filterMap
        (fun p =>
          match p.1, p.2 with
          | some u, some i => some |u * i|
          | _, _ => none)
    let S_total : ℚ := if S_terms.isEmpty then 0 else S_terms.sum
    if S_total ≤ 1 / 1000000 then none
    else
      let pf := Pt / S_total
      let pf1 := if pf > 1 then (1 : ℚ) else pf
      let pf2 := if pf1 < -1 then (-1 : ℚ) else pf1
      some pf2

/-- Embedding of `read_all(client)`.  The Python dict built by successive
`data["name"] = ...` assignments (all keys distinct) is modelled as the final
association list in assignment order; the dict reads
`data["P_L1_W"]`, `data.get(f"U_{phase}_V")`, ... performed by the power-factor
block retrieve exactly the values bound here.  Addresses, word counts,
signedness and scales are verbatim from the source (`0.01 = 1/100`). -/
def read_all (t : Transport) : Except String (List (String × Option ℚ)) := do
  let P_total_W ← read_int32_scaled t 0x3080 1 true
  let E_total_forward_kWh ← read_int32_scaled t 0x3034 (1 / 100) false
  let E_total_reverse_kWh ← read_int32_scaled t 0x3036 (1 / 100) false
  let U_PEN_V ← read_int16_scaled t 0x3033 (1 / 100) true
  let freq_Hz ← read_int16_scaled t 0x3032 (1 / 100) false
  let U_L1_V ← read_int16_scaled t 0x3040 (1 / 100) true
  let I_L1_A ← read_int16_scaled t 0x3041 (1 / 100) true
  let P_L1_W ← read_int32_scaled t 0x3082 1 true
  let E_L1_forward_kWh ← read_int32_scaled t 0x3042 (1 / 100) false
  let E_L1_reverse_kWh ← read_int32_scaled t 0x3044 (1 / 100) false
  let U_L2_V ← read_int16_scaled t 0x3048 (1 / 100) true
  let I_L2_A ← read_int16_scaled t 0x3049 (1 / 100) true
  let P_L2_W ← read_int32_scaled t 0x3086 1 true
  let E_L2_forward_kWh ← read_int32_scaled t 0x304A (1 / 100) false
  let E_L2_reverse_kWh ← read_int32_scaled t 0x304C (1 / 100) false
  let U_L3_V ← read_int16_scaled t 0x3050 (1 / 100) true
  let I_L3_A ← read_int16_scaled t 0x3051 (1 / 100) true
  let P_L3_W ← read_int32_scaled t 0x308A 1 true
  let E_L3_forward_kWh ← read_int32_scaled t 0x3052 (1 / 100) false
  let E_L3_reverse_kWh ← read_int32_scaled t 0x3054 (1 / 100) false
  let PF_L1 := pf_for_phase P_L1_W U_L1_V I_L1_A
  let PF_L2 := pf_for_phase P_L2_W U_L2_V I_L2_A
  let PF_L3 := pf_for_phase P_L3_W U_L3_V I_L3_A
  let PF_total := pf_total_calc P_total_W U_L1_V I_L1_A U_L2_V I_L2_A U_L3_V I_L3_A
  pure [("P_total_W", P_total_W),
        ("E_total_forward_kWh", E_total_forward_kWh),
        ("E_total_reverse_kWh", E_total_reverse_kWh),
        ("U_PEN_V", U_PEN_V),
        ("freq_Hz", freq_Hz),
        ("U_L1_V", U_L1_V),
        ("I_L1_A", I_L1_A),
        ("P_L1_W", P_L1_W),
        ("E_L1_forward_kWh", E_L1_forward_kWh),
        ("E_L1_reverse_kWh", E_L1_reverse_kWh),
        ("U_L2_V", U_L2_V),
        ("I_L2_A", I_L2_A),
        ("P_L2_W", P_L2_W),
        ("E_L2_forward_kWh", E_L2_forward_kWh),
        ("E_L2_reverse_kWh", E_L2_reverse_kWh),
        ("U_L3_V", U_L3_V),
        ("I_L3_A", I_L3_A),
        ("P_L3_W", P_L3_W),
        ("E_L3_forward_kWh", E_L3_forward_kWh),
        ("E_L3_reverse_kWh", E_L3_reverse_kWh),
        ("PF_L1", PF_L1),
        ("PF_L2", PF_L2),
        ("PF_L3", PF_L3),
        ("PF_total", PF_total)]

/-! ### Spec-side definitions (from the spec's words, for refinement claims) -/

/-- Spec §3 `RegisterSpec`: one measurement's address, word count (1 or 2),
signedness and scale, keyed by the output field name. -/
structure RegisterSpec where
  name : String
  address : ℕ
  words : ℕ
  signed : Bool
  scale : ℚ
deriving DecidableEq

/-- Spec §3: the fixed register table, in the snapshot's field order. -/
def registerTable : List RegisterSpec :=
  [⟨"P_total_W", 0x3080, 2, true, 1⟩,
   ⟨"E_total_forward_kWh", 0x3034, 2, false, 1 / 100⟩,
   ⟨"E_total_reverse_kWh", 0x3036, 2, false, 1 / 100⟩,
   ⟨"U_PEN_V", 0x3033, 1, true, 1 / 100⟩,
   ⟨"freq_Hz", 0x3032, 1, false, 1 / 100⟩,
   ⟨"U_L1_V", 0x3040, 1, true, 1 / 100⟩,
   ⟨"I_L1_A", 0x3040 + 1, 1, true, 1 / 100⟩,
   ⟨"P_L1_W", 0x3082, 2, true, 1⟩,
   ⟨"E_L1_forward_kWh", 0x3042, 2, false, 1 / 100⟩,
   ⟨"E_L1_reverse_kWh", 0x3042 + 2, 2, false, 1 / 100⟩,
   ⟨"U_L2_V", 0x3048, 1, true, 1 / 100⟩,
   ⟨"I_L2_A", 0x3048 + 1, 1, true, 1 / 100⟩,
   ⟨"P_L2_W", 0x3086, 2, true, 1⟩,
   ⟨"E_L2_forward_kWh", 0x304A, 2, false, 1 / 100⟩,
   ⟨"E_L2_reverse_kWh", 0x304A + 2, 2, false, 1 / 100⟩,
   ⟨"U_L3_V", 0x3050, 1, true, 1 / 100⟩,
   ⟨"I_L3_A", 0x3050 + 1, 1, true, 1 / 100⟩,
   ⟨"P_L3_W", 0x308A, 2, true, 1⟩,
   ⟨"E_L3_forward_kWh", 0x3052, 2, false, 1 / 100⟩,
   ⟨"E_L3_reverse_kWh", 0x3052 + 2, 2, false, 1 / 100⟩]

/-- Spec-side unsigned value of a block of words, high word first:
`(high << 16) | low` generalised to a fold (each word masked to 16 bits). -/
def wordsToUnsigned (regs : List ℕ) : ℕ :=
  regs.foldl (fun acc w => acc * 65536 + w % 65536) 0

/-- Spec §4.1, stated by comparison instead of a bit test: if the sign bit is
set (`v ≥ 2^(width-1)` for an in-range `v`), subtract `2^width`. -/
def signedInterp (v : ℕ) (width : ℕ) : ℤ :=
  if 2 ^ (width - 1) ≤ v then (v : ℤ) - 2 ^ width else (v : ℤ)

/-- Spec-side value of one field: the two-space register access at the given
address, decoded per signedness and multiplied by the scale (spec §4.2–4.2.1);
absent exactly when the access failed. -/
def specValue (t : Transport) (address words : ℕ) (signed : Bool) (scale : ℚ) :
    Option ℚ :=
  (read_input_or_holding t address words).map
    (fun regs =>
      ((if signed then signedInterp (wordsToUnsigned regs) (16 * words)
        else (wordsToUnsigned regs : ℤ) : ℤ) : ℚ) * scale)

/-- Spec-side value of a register-table entry. -/
def specFieldValue (t : Transport) (r : RegisterSpec) : Option ℚ :=
  specValue t r.address r.words r.signed r.scale

/-- The register part of the spec-side snapshot: one field per table entry. -/
def tableSnapshot (t : Transport) : List (String × Option ℚ) :=
  registerTable.map (fun r => (r.name, specFieldValue t r))

/-- Lookup of a register field in the spec-side snapshot. -/
def fieldOf (t : Transport) (n : String) : Option ℚ :=
  ((tableSnapshot t).lookup n).join

/-- The spec-side snapshot builder (spec §4.4–4.5): the register table's fields
followed by the four derived power-factor fields. -/
def build_from_table (t : Transport) : List (String × Option ℚ) :=
  tableSnapshot t ++
    [("PF_L1", pf_for_phase (fieldOf t "P_L1_W") (fieldOf t "U_L1_V")
        (fieldOf t "I_L1_A")),
     ("PF_L2", pf_for_phase (fieldOf t "P_L2_W") (fieldOf t "U_L2_V")
        (fieldOf t "I_L2_A")),
     ("PF_L3", pf_for_phase (fieldOf t "P_L3_W") (fieldOf t "U_L3_V")
        (fieldOf t "I_L3_A")),
     ("PF_total", pf_total_calc (fieldOf t "P_total_W")
        (fieldOf t "U_L1_V") (fieldOf t "I_L1_A")
        (fieldOf t "U_L2_V") (fieldOf t "I_L2_A")
        (fieldOf t "U_L3_V") (fieldOf t "I_L3_A"))]

/-! ### The display step (`main`'s per-cycle rendering) -/

/-- Python f-string formatting of a possibly-absent value with a float format
spec (`:.1f` etc.): formatting `None` raises `TypeError`.  Display precision is
abstracted to `toString`. -/
def fmtFloat (x : Option ℚ) : Except String String :=
  match x with
  | some v => .ok (toString v)
  | none => .error "TypeError: unsupported format string passed to NoneType"

/-- `values[k]` on the snapshot dict: `KeyError` when the key is missing. -/
def getItem (d : List (String × Option ℚ)) (k : String) :
    Except String (Option ℚ) :=
  match d.lookup k with
  | some v => .ok v
  | none => .error ("KeyError: " ++ k)

/-- `f"...{values[k]:.1f}..."`: fetch the value and float-format it. -/
def fmtItem (d : List (String × Option ℚ)) (k : String) :
    Except String String :=
  match getItem d k with
  | .error e => .error e
  | .ok v => fmtFloat v

/-- One per-phase display line of `main` (the source inlines this three times
with `phase ∈ {L1, L2, L3}`): the guard is on `values["PF_<phase>"]` only,
while U, I and P are float-formatted unconditionally in both branches. -/
def phase_line (d : List (String × Option ℚ)) (phase : String) :
    Except String String := do
  let pf ← getItem d ("PF_" ++ phase)
  let u ← fmtItem d ("U_" ++ phase ++ "_V")
  let i ← fmtItem d ("I_" ++ phase ++ "_A")
  let p ← fmtItem d ("P_" ++ phase ++ "_W")
  match pf with
  | some pfv =>
    pure (phase ++ ": U=" ++ u ++ " V, I=" ++ i ++ " A, P=" ++ p ++
      " W, cos phi=" ++ toString pfv)
  | none =>
    pure (phase ++ ": U=" ++ u ++ " V, I=" ++ i ++ " A, P=" ++ p ++
      " W, cos phi=NA")

/-- One per-phase energy display line of `main`. -/
def energy_line (d : List (String × Option ℚ)) (phase : String) :
    Except String String := do
  let ef ← fmtItem d ("E_" ++ phase ++ "_forward_kWh")
  let er ← fmtItem d ("E_" ++ phase ++ "_reverse_kWh")
  pure ("    Energy " ++ phase ++ " forward:     " ++ ef ++
    " kWh, reverse: " ++ er ++ " kWh")

/-- Embedding of one poll cycle's display in `main`: if
`values.get("P_total_W")` is `None`, a single diagnostic line; otherwise the
full block of prints, in source order.  Any `TypeError`/`KeyError` raised by a
format expression propagates (there is no exception handler in the loop). -/
def render_cycle (values : List (String × Option ℚ)) :
    Except String (List String) :=
  match (values.lookup "P_total_W").join with
  | none => .ok ["Read error: could not read basic registers."]
  | some _ => do
    let pt ← fmtItem values "P_total_W"
    let ef ← fmtItem values "E_total_forward_kWh"
    let er ← fmtItem values "E_total_reverse_kWh"
    let fr ← fmtItem values "freq_Hz"
    let up ← fmtItem values "U_PEN_V"
    let l1 ← phase_line values "L1"
    let e1 ← energy_line values "L1"
    let l2 ← phase_line values "L2"
    let e2 ← energy_line values "L2"
    let l3 ← phase_line values "L3"
    let e3 ← energy_line values "L3"
    let pft ← getItem values "PF_total"
    let pftLine :=
      match pft with
      | some v => "Total power factor:        " ++ toString v
      | none => "Total power factor:        NA"
    pure ["----- VM-3P75CT (Modbus/UDP live data) -----",
          "Total active power:        " ++ pt ++ " W",
          "Total energy forward:      " ++ ef ++ " kWh, reverse: " ++ er ++
            " kWh",
          "Frequency:                 " ++ fr ++ " Hz",
          "PEN voltage:               " ++ up ++ " V",
          l1, e1, l2, e2, l3, e3, pftLine]

/-! ### Helper lemmas -/

/-- The top bit of an in-range value is set exactly when the value reaches
`2 ^ k`. -/
lemma testBit_iff_of_lt (v k : ℕ) (h : v < 2 ^ (k + 1)) :
    Nat.testBit v k = true ↔ 2 ^ k ≤ v := by
  have hpos : 0 < 2 ^ k := Nat.pos_pow_of_pos k (by norm_num)
  rw [Nat.testBit_to_div_mod]
  simp only [decide_eq_true_eq]
  have hq : v / 2 ^ k < 2 := by
    apply Nat.div_lt_of_lt_mul
    calc v < 2 ^ (k + 1) := h
    _ = 2 ^ k * 2 := by ring
  constructor
  · intro h1
    by_contra hc
    push_neg at hc
    rw [Nat.div_eq_of_lt hc] at h1
    simp at h1
  · intro h1
    have h2 : 1 ≤ v / 2 ^ k := (Nat.one_le_div_iff hpos).mpr h1
    have h3 : v / 2 ^ k = 1 := by omega
    rw [h3]

/-- For a positive width and an in-range value, `twos_complement` succeeds and
agrees with the comparison-based sign rule. -/
lemma twos_complement_ok (value bits : ℕ) (h1 : bits ≠ 0)
    (h2 : value < 2 ^ bits) :
    twos_complement value bits = .ok (signedInterp value bits) := by
  obtain ⟨k, rfl⟩ : ∃ k, bits = k + 1 := ⟨bits - 1, by omega⟩
  unfold twos_complement signedInterp
  rw [if_neg (by omega)]
  simp only [Nat.add_sub_cancel]
  by_cases hb : 2 ^ k ≤ value
  · rw [if_pos ((testBit_iff_of_lt value k h2).mpr hb), if_pos hb]
  · rw [if_neg (fun hc => hb ((testBit_iff_of_lt value k h2).mp hc)), if_neg hb]

lemma wordsToUnsigned_one (w : ℕ) : wordsToUnsigned [w] = w % 65536 := by
  simp [wordsToUnsigned]

lemma wordsToUnsigned_two (h l : ℕ) :
    wordsToUnsigned [h, l] = (h % 65536) * 65536 + l % 65536 := by
  simp [wordsToUnsigned, List.foldl]

/-- A well-behaved decode value on a singleton list. -/
lemma decode_int16_eq (w : ℕ) (sg : Bool) :
    decode_int16 [w] sg =
      .ok (if sg then signedInterp (w % 65536) 16 else ((w % 65536 : ℕ) : ℤ)) := by
  have hlt : w % 65536 < 2 ^ 16 := by
    have := Nat.mod_lt w (y := 65536) (by norm_num)
    norm_num
    omega
  cases sg with
  | false => simp [decode_int16]
  | true => simp [decode_int16, twos_complement_ok (w % 65536) 16 (by norm_num) hlt]

/-- A well-behaved decode value on a two-element list. -/
lemma decode_int32_eq (h l : ℕ) (sg : Bool) :
    decode_int32 [h, l] sg =
      .ok (if sg then signedInterp ((h % 65536) * 65536 + l % 65536) 32
           else (((h % 65536) * 65536 + l % 65536 : ℕ) : ℤ)) := by
  have hlt : (h % 65536) * 65536 + l % 65536 < 2 ^ 32 := by
    have h1 : h % 65536 < 65536 := Nat.mod_lt h (by norm_num)
    have h2 : l % 65536 < 65536 := Nat.mod_lt l (by norm_num)
    norm_num
    omega
  cases sg with
  | false => simp [decode_int32]
  | true =>
    simp [decode_int32,
      twos_complement_ok ((h % 65536) * 65536 + l % 65536) 32 (by norm_num) hlt]

/-! ### C1, C2, C8 -/

/-- C8 counterexample: at width 8 (neither 16 nor 32) the two's-complement
conversion does not fail — the source performs no width validation. -/
theorem twos_complement_width8_ok : twos_complement 0 8 = Except.ok 0 := rfl

/-- C8 (amended): `_twos_complement` performs no width validation.  For every
positive width it is total: it returns the input unchanged when the sign bit
is clear (`value < 2^(width-1)`, for an in-range value) and the input minus
`2^width` when it is set; the only failing case is a non-positive width
(Python raises `ValueError` on the negative shift), not a width outside
{16, 32}. -/
theorem twos_complement_no_width_check (value bits : ℕ) (h1 : bits ≠ 0)
    (h2 : value < 2 ^ bits) :
    twos_complement value bits =
      .ok (if 2 ^ (bits - 1) ≤ value then (value : ℤ) - 2 ^ bits
           else (value : ℤ)) ∧
    twos_complement value 0 = .error "ValueError: negative shift count" :=
  ⟨(twos_complement_ok value bits h1 h2).trans (by rw [signedInterp]), rfl⟩

theorem twos_complement_no_width_check_witness :
    twos_complement 128 8 =
      .ok (if 2 ^ (8 - 1) ≤ 128 then ((128 : ℕ) : ℤ) - 2 ^ 8
           else ((128 : ℕ) : ℤ)) ∧
    twos_complement 128 0 = .error "ValueError: negative shift count" :=
  twos_complement_no_width_check 128 8 (by norm_num) (by norm_num)

/-- C1: `decode_int16` on a single 16-bit word returns the word unsigned when
`signed = false`, and the word minus 65536 iff the word is at least 32768 when
`signed = true`; on any other length it fails with the `ValueError`. -/
theorem decode_int16_spec (registers : List ℕ) (signed : Bool)
    (hw : ∀ w ∈ registers, w < 65536) :
    (∀ w, registers = [w] →
      decode_int16 registers signed =
        .ok (if signed = true ∧ 32768 ≤ w then (w : ℤ) - 65536 else (w : ℤ))) ∧
    (registers.length ≠ 1 →
      decode_int16 registers signed =
        .error "decode_int16 expects exactly 1 register") := by
  constructor
  · rintro w rfl
    have hwlt : w < 65536 := hw w (by simp)
    have hmod : w % 65536 = w := Nat.mod_eq_of_lt hwlt
    rw [decode_int16_eq, hmod]
    cases signed with
    | false => simp
    | true =>
      rw [signedInterp]
      norm_num
  · intro hlen
    match registers, hlen with
    | [], _ => rfl
    | [a], h => simp at h
    | a :: b :: rest, _ => rfl

theorem decode_int16_spec_witness :
    decode_int16 [40000] true = .ok (-25536) ∧
    decode_int16 [1, 2] true = .error "decode_int16 expects exactly 1 register" := by
  have h1 := (decode_int16_spec [40000] true (by norm_num)).1 40000 rfl
  have h2 := (decode_int16_spec [1, 2] true (by norm_num)).2 (by norm_num)
  refine ⟨?_, h2⟩
  rw [h1]
  norm_num

/-- C2: `decode_int32` on exactly two 16-bit words `[hi, lo]` returns
`(hi <<< 16) ||| lo` unsigned, with `2^32` subtracted when bit 31 is set in
the signed case; on any other length it fails with the `ValueError`. -/
theorem decode_int32_spec (registers : List ℕ) (signed : Bool)
    (hw : ∀ w ∈ registers, w < 65536) :
    (∀ hi lo, registers = [hi, lo] →
      decode_int32 registers signed =
        .ok (if signed = true ∧ 2 ^ 31 ≤ (hi <<< 16) ||| lo
             then (((hi <<< 16) ||| lo : ℕ) : ℤ) - 2 ^ 32
             else (((hi <<< 16) ||| lo : ℕ) : ℤ))) ∧
    (registers.length ≠ 2 →
      decode_int32 registers signed =
        .error "decode_int32 expects exactly 2 registers") := by
  constructor
  · rintro hi lo rfl
    have hhi : hi < 65536 := hw hi (by simp)
    have hlo : lo < 65536 := hw lo (by simp)
    have hcomb : (hi <<< 16) ||| lo = hi * 65536 + lo := by
      have h1 : hi <<< 16 = 2 ^ 16 * hi := by
        rw [Nat.shiftLeft_eq]
        ring
      have h2 := Nat.mul_add_lt_is_or (i := 16) (b := lo) (by norm_num; omega) hi
      rw [h1, ← h2]
      ring_nf
    rw [decode_int32_eq, Nat.mod_eq_of_lt hhi, Nat.mod_eq_of_lt hlo, hcomb]
    cases signed with
    | false => simp
    | true =>
      rw [signedInterp]
      norm_num
  · intro hlen
    match registers, hlen with
    | [], _ => rfl
    | [a], _ => rfl
    | [a, b], h => simp at h
    | a :: b :: c :: rest, _ => rfl

theorem decode_int32_spec_witness :
    decode_int32 [0x8000, 0] true = .ok (-2147483648) ∧
    decode_int32 [1, 2, 3] false =
      .error "decode_int32 expects exactly 2 registers" := by
  have h1 := (decode_int32_spec [0x8000, 0] true (by norm_num)).1 0x8000 0 rfl
  have h2 := (decode_int32_spec [1, 2, 3] false (by norm_num)).2 (by norm_num)
  refine ⟨?_, h2⟩
  rw [h1]
  norm_num [Nat.shiftLeft_eq]

/-! ### C3, C4: power-factor derivation -/

/-- The source's two sequential clamping `if`s coincide with clamping to
`[-1, 1]`. -/
lemma clamp_eq (x : ℚ) :
    (if (if x > 1 then (1 : ℚ) else x) < -1 then (-1 : ℚ)
     else (if x > 1 then (1 : ℚ) else x)) = max (-1) (min 1 x) := by
  by_cases h1 : x > 1
  · rw [if_pos h1, if_neg (by norm_num)]
    rw [min_eq_left (le_of_lt h1), max_eq_right (by norm_num)]
  · rw [if_neg h1]
    push_neg at h1
    rw [min_eq_right h1]
    by_cases h2 : x < -1
    · rw [if_pos h2, max_eq_left (le_of_lt h2)]
    · push_neg at h2
      rw [if_neg (not_lt.mpr h2), max_eq_right h2]

/-- C3: the per-phase power factor is absent when any of P, U, I is absent or
`abs (U * I) < 1e-6`; otherwise it is `P / (U * I)` clamped to `[-1, 1]`. -/
theorem pf_for_phase_spec (P U I : Option ℚ) :
    ((P = none ∨ U = none ∨ I = none) → pf_for_phase P U I = none) ∧
    (∀ p u i, P = some p → U = some u → I = some i →
      (|u * i| < 1 / 1000000 → pf_for_phase P U I = none) ∧
      (1 / 1000000 ≤ |u * i| →
        pf_for_phase P U I = some (max (-1) (min 1 (p / (u * i)))))) := by
  constructor
  · rintro (rfl | rfl | rfl)
    · rcases U with _ | u <;> rcases I with _ | i <;> rfl
    · rcases P with _ | p <;> rcases I with _ | i <;> rfl
    · rcases P with _ | p <;> rcases U with _ | u <;> rfl
  · rintro p u i rfl rfl rfl
    constructor
    · intro hsmall
      rw [pf_for_phase]
      simp only [if_pos hsmall]
    · intro hbig
      rw [pf_for_phase]
      simp only [if_neg (not_lt.mpr hbig)]
      rw [clamp_eq]

theorem pf_for_phase_spec_witness :
    pf_for_phase (some 1000) (some 230) (some (45 / 10)) =
      some (max (-1) (min 1 (1000 / (230 * (45 / 10))))) :=
  ((pf_for_phase_spec (some 1000) (some 230) (some (45 / 10))).2 1000 230
    (45 / 10) rfl rfl rfl).2 (by
      rw [abs_of_nonneg (by norm_num)]
      norm_num)

/-- Spec-side apparent-power term of one phase: `abs (U * I)` when both are
present, contributing nothing (0) otherwise. -/
def apparentTerm (U I : Option ℚ) : ℚ :=
  match U, I with
  | some u, some i => |u * i|
  | _, _ => 0

/-- Spec-side total apparent power: sum over the phases L1, L2, L3. -/
def S_total_spec (U1 I1 U2 I2 U3 I3 : Option ℚ) : ℚ :=
  apparentTerm U1 I1 + apparentTerm U2 I2 + apparentTerm U3 I3

/-- The source's `sum(S_terms) if S_terms else 0.0` over the filtered term list
equals the spec-side sum with absent phases contributing 0. -/
lemma S_terms_eq (U1 I1 U2 I2 U3 I3 : Option ℚ) :
    (if ([(U1, I1), (U2, I2), (U3, I3)].filterMap
          (fun p =>
            match p.1, p.2 with
            | some u, some i => some |u * i|
            | _, _ => none)).isEmpty
     then (0 : ℚ)
     else ([(U1, I1), (U2, I2), (U3, I3)].filterMap
          (fun p =>
            match p.1, p.2 with
            | some u, some i => some |u * i|
            | _, _ => none)).sum) =
      S_total_spec U1 I1 U2 I2 U3 I3 := by
  rcases U1 with _ | u1 <;> rcases I1 with _ | i1 <;>
    rcases U2 with _ | u2 <;> rcases I2 with _ | i2 <;>
    rcases U3 with _ | u3 <;> rcases I3 with _ | i3 <;>
    simp [S_total_spec, apparentTerm, List.filterMap_cons] <;> ring

/-- On a present total power, `pf_total_calc` is the guarded clamped ratio
against the spec-side apparent power. -/
lemma pf_total_calc_some (p : ℚ) (U1 I1 U2 I2 U3 I3 : Option ℚ) :
    pf_total_calc (some p) U1 I1 U2 I2 U3 I3 =
      (if S_total_spec U1 I1 U2 I2 U3 I3 ≤ 1 / 1000000 then none
       else some (max (-1) (min 1 (p / S_total_spec U1 I1 U2 I2 U3 I3)))) := by
  rw [pf_total_calc]
  simp only [S_terms_eq]
  by_cases hle : S_total_spec U1 I1 U2 I2 U3 I3 ≤ 1 / 1000000
  · rw [if_pos hle, if_pos hle]
  · rw [if_neg hle, if_neg hle, clamp_eq]

/-- C4: the total power factor is absent when total power is absent; otherwise
the apparent power sums `abs (U * I)` over exactly the phases with both U and I
present; if it is `≤ 1e-6` the result is absent, else `P_total / S_total`
clamped to `[-1, 1]`.  (With a phase missing, the others still contribute —
the witness instantiates L3 absent with L1, L2 present.) -/
theorem pf_total_spec (Pt U1 I1 U2 I2 U3 I3 : Option ℚ) :
    (Pt = none → pf_total_calc Pt U1 I1 U2 I2 U3 I3 = none) ∧
    (∀ p, Pt = some p →
      (S_total_spec U1 I1 U2 I2 U3 I3 ≤ 1 / 1000000 →
        pf_total_calc Pt U1 I1 U2 I2 U3 I3 = none) ∧
      (1 / 1000000 < S_total_spec U1 I1 U2 I2 U3 I3 →
        pf_total_calc Pt U1 I1 U2 I2 U3 I3 =
          some (max (-1) (min 1 (p / S_total_spec U1 I1 U2 I2 U3 I3))))) := by
  constructor
  · rintro rfl
    rfl
  · rintro p rfl
    constructor
    · intro hsmall
      rw [pf_total_calc_some, if_pos hsmall]
    · intro hbig
      rw [pf_total_calc_some, if_neg (not_le.mpr hbig)]

theorem pf_total_spec_witness :
    1 / 1000000 < S_total_spec (some 230) (some 2) none (some 3) none none ∧
    pf_total_calc (some 400) (some 230) (some 2) none (some 3) none none =
      some (max (-1) (min 1 (400 / S_total_spec (some 230) (some 2) none (some 3) none none))) := by
  have h460 : |(230 : ℚ) * 2| = 460 := by
    rw [abs_of_nonneg (by norm_num : (0 : ℚ) ≤ 230 * 2)]
    norm_num
  have hb : (1 : ℚ) / 1000000 < S_total_spec (some 230) (some 2) none (some 3) none none := by
    simp only [S_total_spec, apparentTerm, h460]
    norm_num
  exact ⟨hb,
    ((pf_total_spec (some 400) (some 230) (some 2) none (some 3) none none).2
      400 rfl).2 hb⟩

/-! ### C5: register access with fallback -/

/-- C5: the register access returns the input-register words when that read
succeeds; when it fails, the result is exactly the holding-register read's
result (the fallback's words on success, and `none` — an explicit absence, not
a raised failure — when both fail). -/
theorem read_input_or_holding_spec (t : Transport) (address count : ℕ) :
    (∀ regs, t.readInput address count = some regs →
      read_input_or_holding t address count = some regs) ∧
    (t.readInput address count = none →
      read_input_or_holding t address count = t.readHolding address count) ∧
    (t.readInput address count = none → t.readHolding address count = none →
      read_input_or_holding t address count = none) := by
  refine ⟨?_, ?_, ?_⟩
  · intro regs h
    rw [read_input_or_holding, h]
  · intro h
    rw [read_input_or_holding, h]
    rcases hh : t.readHolding address count with _ | regs <;> rfl
  · intro h hh
    rw [read_input_or_holding, h, hh]

/-- A transport whose input-register reads all fail and whose holding-register
reads all succeed with `count` copies of 7. -/
def tFallback : Transport :=
  ⟨fun _ _ => none, fun _ c => some (List.replicate c 7)⟩

theorem read_input_or_holding_spec_witness :
    read_input_or_holding tFallback 0x3080 2 = some [7, 7] ∧
    read_input_or_holding ⟨fun _ _ => none, fun _ _ => none⟩ 0x3080 2 = none := by
  constructor
  · have h := (read_input_or_holding_spec tFallback 0x3080 2).2.1 rfl
    rw [h]
    rfl
  · exact (read_input_or_holding_spec ⟨fun _ _ => none, fun _ _ => none⟩ 0x3080 2).2.2 rfl rfl

/-! ### C6, C7, C10: the snapshot builder -/

/-- Under the transport contract, a successful two-space access returns exactly
`count` words. -/
lemma wf_read_length (t : Transport) (h : t.Wf) (a c : ℕ) (regs : List ℕ)
    (hr : read_input_or_holding t a c = some regs) : regs.length = c := by
  rw [read_input_or_holding] at hr
  cases hi : t.readInput a c with
  | some r =>
    rw [hi] at hr
    cases hr
    exact (h a c regs).1 hi
  | none =>
    rw [hi] at hr
    cases hh : t.readHolding a c with
    | some r =>
      rw [hh] at hr
      cases hr
      exact (h a c regs).2 hh
    | none =>
      rw [hh] at hr
      cases hr

/-- Under the transport contract, a 16-bit scaled read never raises and
produces the spec-side value of its own register access. -/
lemma read_int16_scaled_wf (t : Transport) (h : t.Wf) (a : ℕ) (scale : ℚ)
    (sg : Bool) :
    read_int16_scaled t a scale sg = .ok (specValue t a 1 sg scale) := by
  cases hr : read_input_or_holding t a 1 with
  | none => simp [read_int16_scaled, specValue, hr]
  | some regs =>
    obtain ⟨w, rfl⟩ := List.length_eq_one.mp (wf_read_length t h a 1 regs hr)
    cases sg <;>
      simp [read_int16_scaled, specValue, hr, decode_int16_eq,
        wordsToUnsigned_one] <;>
      try
        left
        norm_cast

/-- Under the transport contract, a 32-bit scaled read never raises and
produces the spec-side value of its own register access. -/
lemma read_int32_scaled_wf (t : Transport) (h : t.Wf) (a : ℕ) (scale : ℚ)
    (sg : Bool) :
    read_int32_scaled t a scale sg = .ok (specValue t a 2 sg scale) := by
  cases hr : read_input_or_holding t a 2 with
  | none => simp [read_int32_scaled, specValue, hr]
  | some regs =>
    have hl := wf_read_length t h a 2 regs hr
    match regs, hl with
    | [x, y], _ =>
      cases sg <;>
        simp [read_int32_scaled, specValue, hr, decode_int32_eq,
          wordsToUnsigned_two] <;>
        try
          left
          norm_cast

/-- Under the transport contract, `read_all` succeeds and returns exactly the
spec-side snapshot built from the fixed register table plus the four derived
power-factor fields. -/
lemma read_all_eq_build (t : Transport) (h : t.Wf) :
    read_all t = .ok (build_from_table t) := by
  simp only [read_all, read_int16_scaled_wf t h, read_int32_scaled_wf t h]
  rfl

/-- A transport whose reads all succeed: input-register reads return `count`
copies of 5, holding-register reads `count` copies of 7. -/
def tOk : Transport :=
  ⟨fun _ c => some (List.replicate c 5), fun _ c => some (List.replicate c 7)⟩

lemma tOk_wf : tOk.Wf := by
  intro a c regs
  refine ⟨fun h => ?_, fun h => ?_⟩ <;>
  · simp only [tOk] at h
    cases h
    simp

lemma tFallback_wf : tFallback.Wf := by
  intro a c regs
  refine ⟨fun h => ?_, fun h => ?_⟩
  · simp [tFallback] at h
  · simp only [tFallback] at h
    cases h
    simp

/-- C6: under the transport interface contract, `read_all` produces exactly the
snapshot prescribed by the fixed register table — for each table entry
(address, word count, signedness, scale) the field named by the entry carries
the decoded raw integer times the scale from a read at that address — followed
by the derived power-factor fields. -/
theorem read_all_implements_table (t : Transport) (h : t.Wf) :
    read_all t = .ok (build_from_table t) :=
  read_all_eq_build t h

theorem read_all_implements_table_witness :
    read_all tOk = .ok (build_from_table tOk) :=
  read_all_implements_table tOk tOk_wf

/-- C7: field independence of the snapshot builder.  For every register-table
entry: `read_all` never aborts; the entry's field is populated with the value
of its own register access; the field is absent exactly when that access
failed in both register spaces; and the field depends only on the transport's
behaviour at the entry's own (address, count) — failures of other registers
cannot alter it. -/
theorem read_all_field_independence (t t' : Transport) (h : t.Wf)
    (r : RegisterSpec) (hr : r ∈ registerTable) :
    read_all t = .ok (build_from_table t) ∧
    (build_from_table t).lookup r.name = some (specFieldValue t r) ∧
    (specFieldValue t r = none ↔
      read_input_or_holding t r.address r.words = none) ∧
    (read_input_or_holding t r.address r.words =
        read_input_or_holding t' r.address r.words →
      specFieldValue t r = specFieldValue t' r) := by
  refine ⟨read_all_eq_build t h, ?_, ?_, ?_⟩
  · fin_cases hr <;> rfl
  · simp only [specFieldValue, specValue]
    exact Option.map_eq_none'
  · intro he
    simp only [specFieldValue, specValue, he]

theorem read_all_field_independence_witness :
    read_all tOk = .ok (build_from_table tOk) ∧
    (build_from_table tOk).lookup "P_total_W" =
      some (specFieldValue tOk ⟨"P_total_W", 0x3080, 2, true, 1⟩) ∧
    (specFieldValue tOk ⟨"P_total_W", 0x3080, 2, true, 1⟩ = none ↔
      read_input_or_holding tOk 0x3080 2 = none) ∧
    (read_input_or_holding tOk 0x3080 2 =
        read_input_or_holding tFallback 0x3080 2 →
      specFieldValue tOk ⟨"P_total_W", 0x3080, 2, true, 1⟩ =
        specFieldValue tFallback ⟨"P_total_W", 0x3080, 2, true, 1⟩) :=
  read_all_field_independence tOk tFallback tOk_wf
    ⟨"P_total_W", 0x3080, 2, true, 1⟩ (by simp [registerTable])

/-- C10: under the transport interface contract — for any subset of register
accesses failing — `read_all` returns (never raises) an association list whose
key list is exactly the fixed 25 field names in order, each value of type
`Option ℚ` (a value or an explicit absence). -/
theorem read_all_key_set (t : Transport) (h : t.Wf) :
    read_all t = .ok (build_from_table t) ∧
    (build_from_table t).map Prod.fst =
      ["P_total_W", "E_total_forward_kWh", "E_total_reverse_kWh", "U_PEN_V",
       "freq_Hz", "U_L1_V", "I_L1_A", "P_L1_W", "E_L1_forward_kWh",
       "E_L1_reverse_kWh", "U_L2_V", "I_L2_A", "P_L2_W", "E_L2_forward_kWh",
       "E_L2_reverse_kWh", "U_L3_V", "I_L3_A", "P_L3_W", "E_L3_forward_kWh",
       "E_L3_reverse_kWh", "PF_L1", "PF_L2", "PF_L3", "PF_total"] :=
  ⟨read_all_eq_build t h, rfl⟩

theorem read_all_key_set_witness :
    read_all tFallback = .ok (build_from_table tFallback) ∧
    (build_from_table tFallback).map Prod.fst =
      ["P_total_W", "E_total_forward_kWh", "E_total_reverse_kWh", "U_PEN_V",
       "freq_Hz", "U_L1_V", "I_L1_A", "P_L1_W", "E_L1_forward_kWh",
       "E_L1_reverse_kWh", "U_L2_V", "I_L2_A", "P_L2_W", "E_L2_forward_kWh",
       "E_L2_reverse_kWh", "U_L3_V", "I_L3_A", "P_L3_W", "E_L3_forward_kWh",
       "E_L3_reverse_kWh", "PF_L1", "PF_L2", "PF_L3", "PF_total"] :=
  read_all_key_set tFallback tFallback_wf

/-! ### C9: the display step -/

/-- A snapshot with total power present but total forward energy absent —
every key exists and all other fields are present. -/
def c9cex : List (String × Option ℚ) :=
  [("P_total_W", some 100), ("E_total_forward_kWh", none),
   ("E_total_reverse_kWh", some 1), ("U_PEN_V", some 230), ("freq_Hz", some 50),
   ("U_L1_V", some 230), ("I_L1_A", some 1), ("P_L1_W", some 100),
   ("E_L1_forward_kWh", some 1), ("E_L1_reverse_kWh", some 1),
   ("U_L2_V", some 230), ("I_L2_A", some 1), ("P_L2_W", some 100),
   ("E_L2_forward_kWh", some 1), ("E_L2_reverse_kWh", some 1),
   ("U_L3_V", some 230), ("I_L3_A", some 1), ("P_L3_W", some 100),
   ("E_L3_forward_kWh", some 1), ("E_L3_reverse_kWh", some 1),
   ("PF_L1", some 1), ("PF_L2", some 1), ("PF_L3", some 1),
   ("PF_total", some 1)]

/-- C9 counterexample: with total power present but one other field
(`E_total_forward_kWh`) absent, the display step raises a `TypeError` from
`f"{None:.2f}"` instead of rendering a "not available" marker — only the
power-factor fields are guarded by an `NA` branch. -/
theorem render_cycle_raises_on_absent_energy :
    render_cycle c9cex =
      .error "TypeError: unsupported format string passed to NoneType" := rfl

/-- A snapshot in which every non-derived field is present (arbitrary values)
and the four power-factor fields are arbitrary. -/
def fullValues (pt ef er up fr u1 i1 p1 e1f e1r u2 i2 p2 e2f e2r u3 i3 p3 e3f
    e3r : ℚ) (pf1 pf2 pf3 pft : Option ℚ) : List (String × Option ℚ) :=
  [("P_total_W", some pt), ("E_total_forward_kWh", some ef),
   ("E_total_reverse_kWh", some er), ("U_PEN_V", some up), ("freq_Hz", some fr),
   ("U_L1_V", some u1), ("I_L1_A", some i1), ("P_L1_W", some p1),
   ("E_L1_forward_kWh", some e1f), ("E_L1_reverse_kWh", some e1r),
   ("U_L2_V", some u2), ("I_L2_A", some i2), ("P_L2_W", some p2),
   ("E_L2_forward_kWh", some e2f), ("E_L2_reverse_kWh", some e2r),
   ("U_L3_V", some u3), ("I_L3_A", some i3), ("P_L3_W", some p3),
   ("E_L3_forward_kWh", some e3f), ("E_L3_reverse_kWh", some e3r),
   ("PF_L1", pf1), ("PF_L2", pf2), ("PF_L3", pf3), ("PF_total", pft)]

/-- C9 (amended): only the derived power-factor fields are guarded.  When
every non-power-factor field is present, one display cycle never raises
(result is `.ok`), for every combination of absent power-factor fields; an
absent `PF_L1`, `PF_L2`, `PF_L3` or `PF_total` is rendered as an explicit
`NA` marker in its line (never a zero).  (An absent non-power-factor field
instead raises a `TypeError`, per the counterexample.) -/
theorem render_cycle_guards_only_pf (pt ef er up fr u1 i1 p1 e1f e1r u2 i2 p2
    e2f e2r u3 i3 p3 e3f e3r : ℚ) (pf1 pf2 pf3 pft : Option ℚ) :
    render_cycle (fullValues pt ef er up fr u1 i1 p1 e1f e1r u2 i2 p2 e2f e2r
      u3 i3 p3 e3f e3r pf1 pf2 pf3 pft) =
    .ok ["----- VM-3P75CT (Modbus/UDP live data) -----",
         "Total active power:        " ++ toString pt ++ " W",
         "Total energy forward:      " ++ toString ef ++ " kWh, reverse: " ++
           toString er ++ " kWh",
         "Frequency:                 " ++ toString fr ++ " Hz",
         "PEN voltage:               " ++ toString up ++ " V",
         (match pf1 with
          | some v => "L1: U=" ++ toString u1 ++ " V, I=" ++ toString i1 ++
              " A, P=" ++ toString p1 ++ " W, cos phi=" ++ toString v
          | none => "L1: U=" ++ toString u1 ++ " V, I=" ++ toString i1 ++
              " A, P=" ++ toString p1 ++ " W, cos phi=NA"),
         "    Energy L1 forward:     " ++ toString e1f ++ " kWh, reverse: " ++
           toString e1r ++ " kWh",
         (match pf2 with
          | some v => "L2: U=" ++ toString u2 ++ " V, I=" ++ toString i2 ++
              " A, P=" ++ toString p2 ++ " W, cos phi=" ++ toString v
          | none => "L2: U=" ++ toString u2 ++ " V, I=" ++ toString i2 ++
              " A, P=" ++ toString p2 ++ " W, cos phi=NA"),
         "    Energy L2 forward:     " ++ toString e2f ++ " kWh, reverse: " ++
           toString e2r ++ " kWh",
         (match pf3 with
          | some v => "L3: U=" ++ toString u3 ++ " V, I=" ++ toString i3 ++
              " A, P=" ++ toString p3 ++ " W, cos phi=" ++ toString v
          | none => "L3: U=" ++ toString u3 ++ " V, I=" ++ toString i3 ++
              " A, P=" ++ toString p3 ++ " W, cos phi=NA"),
         "    Energy L3 forward:     " ++ toString e3f ++ " kWh, reverse: " ++
           toString e3r ++ " kWh",
         (match pft with
          | some v => "Total power factor:        " ++ toString v
          | none => "Total power factor:        NA")] := by
  rcases pf1 with _ | x1 <;> rcases pf2 with _ | x2 <;>
    rcases pf3 with _ | x3 <;> rcases pft with _ | x4 <;> rfl

theorem render_cycle_guards_only_pf_witness :
    render_cycle (fullValues 100 1 1 230 50 230 1 100 1 1 230 1 100 1 1 230 1
      100 1 1 none none none (some 1)) =
    .ok ["----- VM-3P75CT (Modbus/UDP live data) -----",
         "Total active power:        " ++ toString (100 : ℚ) ++ " W",
         "Total energy forward:      " ++ toString (1 : ℚ) ++
           " kWh, reverse: " ++ toString (1 : ℚ) ++ " kWh",
         "Frequency:                 " ++ toString (50 : ℚ) ++ " Hz",
         "PEN voltage:               " ++ toString (230 : ℚ) ++ " V",
         "L1: U=" ++ toString (230 : ℚ) ++ " V, I=" ++ toString (1 : ℚ) ++
           " A, P=" ++ toString (100 : ℚ) ++ " W, cos phi=NA",
         "    Energy L1 forward:     " ++ toString (1 : ℚ) ++
           " kWh, reverse: " ++ toString (1 : ℚ) ++ " kWh",
         "L2: U=" ++ toString (230 : ℚ) ++ " V, I=" ++ toString (1 : ℚ) ++
           " A, P=" ++ toString (100 : ℚ) ++ " W, cos phi=NA",
         "    Energy L2 forward:     " ++ toString (1 : ℚ) ++
           " kWh, reverse: " ++ toString (1 : ℚ) ++ " kWh",
         "L3: U=" ++ toString (230 : ℚ) ++ " V, I=" ++ toString (1 : ℚ) ++
           " A, P=" ++ toString (100 : ℚ) ++ " W, cos phi=NA",
         "    Energy L3 forward:     " ++ toString (1 : ℚ) ++
           " kWh, reverse: " ++ toString (1 : ℚ) ++ " kWh",
         "Total power factor:        " ++ toString (1 : ℚ)] :=
  render_cycle_guards_only_pf 100 1 1 230 50 230 1 100 1 1 230 1 100 1 1 230 1
    100 1 1 none none none (some 1)

end Powermeter
